import Mathlib

/-!
Verification development for the riscv-rt runtime crate.

The definitions below are shallow embeddings of the Rust sources:
 * `src/src/lib.rs`  — boot sequencer (`start_rust`), trap dispatch
   (`start_trap_rust`, `__INTERRUPTS`), and the two assembly trampolines
   (`_nxti_trap_handler`, the `interrupt_handler` macro wrapper);
 * `src/src/clic.rs` — the `MemoryMapper` register accessor and the CLIC
   register-field constants and per-interrupt offset functions.

Machine integers are modelled as `Nat` with explicit `% 2^w` truncation at
the points where the Rust code computes in `u8`/`u32`.
-/

namespace RiscvRt

/-! ### Trap dispatch (src/src/lib.rs, `start_trap_rust`, `__INTERRUPTS`) -/

/-- Core interrupt names, one per slot of the static vector table
(mirrors `enum Interrupt` in src/src/lib.rs). -/
inductive Interrupt
  | UserSoft
  | SupervisorSoft
  | MachineSoft
  | UserTimer
  | SupervisorTimer
  | MachineTimer
  | UserExternal
  | SupervisorExternal
  | MachineExternal
deriving DecidableEq, Repr

/-- A slot of the static vector table: either a handler or the reserved
sentinel (the Rust `union Vector` with `reserved == 0`; function pointers
are nonzero, so `h.reserved == 0` holds exactly on the sentinel slots). -/
inductive Vector
  | handler (h : Interrupt)
  | reserved
deriving DecidableEq, Repr

/-- The static 12-entry vector table `__INTERRUPTS` from src/src/lib.rs:
slots 2, 6 and 10 carry the reserved sentinel. -/
def __INTERRUPTS : List Vector :=
  [Vector.handler Interrupt.UserSoft,
   Vector.handler Interrupt.SupervisorSoft,
   Vector.reserved,
   Vector.handler Interrupt.MachineSoft,
   Vector.handler Interrupt.UserTimer,
   Vector.handler Interrupt.SupervisorTimer,
   Vector.reserved,
   Vector.handler Interrupt.MachineTimer,
   Vector.handler Interrupt.UserExternal,
   Vector.handler Interrupt.SupervisorExternal,
   Vector.reserved,
   Vector.handler Interrupt.MachineExternal]

/-- The registers saved in the trap frame (struct `TrapFrame` in
src/src/lib.rs). -/
structure TrapFrame where
  ra : Nat
  t0 : Nat
  t1 : Nat
  t2 : Nat
  t3 : Nat
  t4 : Nat
  t5 : Nat
  t6 : Nat
  a0 : Nat
  a1 : Nat
  a2 : Nat
  a3 : Nat
  a4 : Nat
  a5 : Nat
  a6 : Nat
  a7 : Nat
deriving DecidableEq, Repr

/-- The view of the cause register used by `start_trap_rust`: the
interrupt/exception flag (`xcause::read().is_exception()`) and the numeric
cause code (`cause.code()`). -/
structure Cause where
  interrupt : Bool
  code : Nat
deriving DecidableEq, Repr

/-- One handler invocation performed by the trap dispatcher. -/
inductive Invocation
  | exceptionH (frame : TrapFrame)
  | interruptH (h : Interrupt)
  | defaultH
deriving DecidableEq, Repr

/-- Shallow embedding of `start_trap_rust` (src/src/lib.rs lines 471-498):
the list of handler invocations it performs, as a function of the build
configuration (`clic` feature flag), the cause register and the trap frame
it received a pointer to.  In-bounds indexing `__INTERRUPTS[cause.code()]`
is rendered with `List.getD`. -/
def startTrapRust (clic : Bool) (cause : Cause) (frame : TrapFrame) :
    List Invocation :=
  if cause.interrupt = false then
    [Invocation.exceptionH frame]
  else if clic then
    [Invocation.defaultH]
  else if cause.code < __INTERRUPTS.length then
    match __INTERRUPTS.getD cause.code Vector.reserved with
    | Vector.reserved => [Invocation.defaultH]
    | Vector.handler h => [Invocation.interruptH h]
  else
    [Invocation.defaultH]

/-- An all-zero trap frame, used as a concrete sample input. -/
def frame0 : TrapFrame := ⟨0, 0, 0, 0, 0, 0, 0, 0, 0, 0, 0, 0, 0, 0, 0, 0⟩

/-- The static table has 12 entries. -/
theorem interrupts_length : __INTERRUPTS.length = 12 := rfl

/-- C1: in the static-table (non-clic) configuration, an exception cause
invokes `ExceptionHandler` on the trap frame; an interrupt cause whose code
indexes a non-reserved slot of the 12-entry `__INTERRUPTS` table invokes
that slot's handler; in every other case (code out of range or reserved
slot) `DefaultHandler` is invoked, never the sentinel slot's content. -/
theorem static_dispatch_cases (cause : Cause) (frame : TrapFrame) :
    (cause.interrupt = false →
      startTrapRust false cause frame = [Invocation.exceptionH frame])
    ∧ (cause.interrupt = true → ∀ h : Interrupt, cause.code < 12 →
        __INTERRUPTS.getD cause.code Vector.reserved = Vector.handler h →
        startTrapRust false cause frame = [Invocation.interruptH h])
    ∧ (cause.interrupt = true →
        (12 ≤ cause.code ∨
          __INTERRUPTS.getD cause.code Vector.reserved = Vector.reserved) →
        startTrapRust false cause frame = [Invocation.defaultH]) := by
  refine ⟨fun hexc => by simp [startTrapRust, hexc], ?_, ?_⟩
  · intro hint h hlt hget
    rw [List.getD_eq_getElem _ _ (by simpa [interrupts_length] using hlt)]
      at hget
    simp [startTrapRust, hint, interrupts_length, hlt, hget]
  · intro hint hcase
    rcases hcase with hge | hres
    · simp [startTrapRust, hint, interrupts_length, Nat.not_lt.mpr hge]
    · by_cases hlt : cause.code < 12
      · rw [List.getD_eq_getElem _ _ (by simpa [interrupts_length] using hlt)]
          at hres
        simp [startTrapRust, hint, interrupts_length, hlt, hres]
      · simp [startTrapRust, hint, interrupts_length, hlt]

/-- Witness for C1: the three branches of `static_dispatch_cases`
evaluated at concrete causes (exception; interrupt code 3, a `MachineSoft`
slot; interrupt code 2, a reserved slot). -/
theorem static_dispatch_cases_witness :
    startTrapRust false ⟨false, 0⟩ frame0 = [Invocation.exceptionH frame0]
    ∧ startTrapRust false ⟨true, 3⟩ frame0
        = [Invocation.interruptH Interrupt.MachineSoft]
    ∧ startTrapRust false ⟨true, 2⟩ frame0 = [Invocation.defaultH] :=
  ⟨(static_dispatch_cases ⟨false, 0⟩ frame0).1 rfl,
   (static_dispatch_cases ⟨true, 3⟩ frame0).2.1 rfl Interrupt.MachineSoft
     (by decide) (by decide),
   (static_dispatch_cases ⟨true, 2⟩ frame0).2.2 rfl (Or.inr (by decide))⟩

/-- C2: for every build configuration, cause-register value and trap
frame, a single run of `start_trap_rust` performs exactly one handler
invocation — never zero, never more than one. -/
theorem dispatch_exactly_one (clic : Bool) (cause : Cause)
    (frame : TrapFrame) : (startTrapRust clic cause frame).length = 1 := by
  unfold startTrapRust
  repeat' split
  all_goals rfl

/-- C10: with the `clic` feature enabled, `start_trap_rust` routes every
interrupt cause — including codes whose `__INTERRUPTS` entry is a valid
handler — to `DefaultHandler` without consulting the vector table, and
only exceptions reach `ExceptionHandler`. -/
theorem clic_dispatch_default (cause : Cause) (frame : TrapFrame) :
    (cause.interrupt = true →
      startTrapRust true cause frame = [Invocation.defaultH])
    ∧ (cause.interrupt = false →
      startTrapRust true cause frame = [Invocation.exceptionH frame]) :=
  ⟨fun hint => by simp [startTrapRust, hint],
   fun hexc => by simp [startTrapRust, hexc]⟩

/-- Witness for C10: interrupt cause 3 (a valid `MachineSoft` slot in the
table) still reaches the default handler under the clic configuration. -/
theorem clic_dispatch_default_witness :
    startTrapRust true ⟨true, 3⟩ frame0 = [Invocation.defaultH]
    ∧ startTrapRust true ⟨false, 3⟩ frame0
        = [Invocation.exceptionH frame0] :=
  ⟨(clic_dispatch_default ⟨true, 3⟩ frame0).1 rfl,
   (clic_dispatch_default ⟨false, 3⟩ frame0).2 rfl⟩

/-! ### Boot sequencer (src/src/lib.rs, `start_rust`) -/

/-- One step performed by `start_rust` on its way to `main`. -/
inductive BootEvent
  | preInit
  | zeroBss
  | initData
  | setupInterrupts
  | callMain (a0 a1 a2 : Nat)
deriving DecidableEq, Repr

/-- Shallow embedding of `start_rust` (src/src/lib.rs lines 407-439): the
sequence of externally visible steps it performs, parametrised by the
(user-replaceable) `_mp_hook` election hook, the hart id it is invoked
with, and the three boot parameters.  `main` is declared `-> !`, so the
trace ends at the `callMain` event. -/
def startRust (mpHook : Nat → Bool) (hartid a0 a1 a2 : Nat) :
    List BootEvent :=
  (if mpHook hartid then
    [BootEvent.preInit, BootEvent.zeroBss, BootEvent.initData]
  else [])
  ++ [BootEvent.setupInterrupts, BootEvent.callMain a0 a1 a2]

/-- C6: `start_rust` runs `__pre_init`, the bss zeroing and the data copy
exactly when `_mp_hook hartid` returns true; every hart then runs
`_setup_interrupts`, and the trace ends with the call to `main` carrying
the boot parameters `a0`, `a1`, `a2` verbatim (that call never returns, so
nothing follows it). -/
theorem start_rust_trace (mpHook : Nat → Bool) (hartid a0 a1 a2 : Nat) :
    (BootEvent.preInit ∈ startRust mpHook hartid a0 a1 a2
      ↔ mpHook hartid = true)
    ∧ (BootEvent.zeroBss ∈ startRust mpHook hartid a0 a1 a2
      ↔ mpHook hartid = true)
    ∧ (BootEvent.initData ∈ startRust mpHook hartid a0 a1 a2
      ↔ mpHook hartid = true)
    ∧ BootEvent.setupInterrupts ∈ startRust mpHook hartid a0 a1 a2
    ∧ (startRust mpHook hartid a0 a1 a2).getLast?
        = some (BootEvent.callMain a0 a1 a2) := by
  cases h : mpHook hartid <;>
    simp [startRust, h, List.getLast?]

/-! ### CLIC nxti fast-dispatch loop
(src/src/lib.rs, `_nxti_trap_handler`, lines 685-698) -/

/-- Modelled from the spec: the hardware next-pending-interrupt operation
(`csrrsi t0, 0x345, 8` on the `mnxti` CSR), which is not part of this
repository.  Per the spec it "atomically returns the handler address for
the highest-priority pending-and-enabled interrupt and clears its pending
bit", returning the null sentinel 0 when nothing is pending.  The
controller state is the priority-ordered list of pending-and-enabled
interrupt ids; `haddr` maps an id to its vector-table entry address. -/
def clicMnxti (haddr : Nat → Nat) : List Nat → Nat × List Nat
  | [] => (0, [])
  | i :: rest => (haddr i, rest)

/-- Shallow embedding of the `_nxti_trap_handler` dispatch loop
(src/src/lib.rs lines 685-698): repeatedly issue the `mnxti` operation;
exit when the returned address is the zero sentinel (`beqz t0, 2f`),
otherwise call through the returned address (`jalr t0`) and repeat.
Returns the list of handler addresses called and the final pending set. -/
def nxtiLoop (haddr : Nat → Nat) : List Nat → List Nat × List Nat
  | [] => ([], [])
  | i :: rest =>
    if haddr i = 0 then ([], rest)
    else
      let r := nxtiLoop haddr rest
      (haddr i :: r.1, r.2)

/-- C5: with a finite pending set `P` at loop entry and handlers that
re-arm nothing (the loop model mutates only via `clicMnxti`), and vector
addresses that are never the zero sentinel, the `_nxti_trap_handler` loop
calls exactly the handlers of `P` in order — `|P|` handler-invoking
iterations — then terminates on the zero sentinel with an empty pending
set; each `clicMnxti` step clears exactly one pending bit before its
handler is called. -/
theorem nxti_loop_count (haddr : Nat → Nat) (P : List Nat)
    (hnz : ∀ i, haddr i ≠ 0) :
    (nxtiLoop haddr P).1 = P.map haddr
    ∧ ((nxtiLoop haddr P).1).length = P.length
    ∧ (nxtiLoop haddr P).2 = []
    ∧ (clicMnxti haddr (nxtiLoop haddr P).2).1 = 0
    ∧ (∀ i rest,
        ((clicMnxti haddr (i :: rest)).2).length + 1 = (i :: rest).length
        ∧ (clicMnxti haddr (i :: rest)).1 = haddr i) := by
  have key : (nxtiLoop haddr P).1 = P.map haddr
      ∧ (nxtiLoop haddr P).2 = [] := by
    induction P with
    | nil => simp [nxtiLoop]
    | cons i rest ih => simp [nxtiLoop, hnz i, ih]
  refine ⟨key.1, ?_, key.2, ?_, fun i rest => ⟨rfl, rfl⟩⟩
  · rw [key.1, List.length_map]
  · rw [key.2]; rfl

/-- Witness for C5: three pending interrupts, handler addresses `id + 64`;
the loop performs exactly three calls and drains the pending set. -/
theorem nxti_loop_count_witness :
    (nxtiLoop (fun i => i + 64) [2, 0, 5]).1 = [66, 64, 69]
    ∧ ((nxtiLoop (fun i => i + 64) [2, 0, 5]).1).length = 3
    ∧ (nxtiLoop (fun i => i + 64) [2, 0, 5]).2 = [] := by
  have h := nxti_loop_count (fun i => i + 64) [2, 0, 5]
    (fun i => Nat.succ_ne_zero (i + 63))
  exact ⟨h.1, h.2.1, h.2.2.1⟩

/-! ### Register accessor (src/src/clic.rs, `MemoryMapper`) -/

/-- Bitwise complement on `w`-bit words (the Rust `!mask` on `u8`/`u32`). -/
def notw (w m : Nat) : Nat := (2 ^ w - 1) ^^^ m

/-- The read-modify-write body shared by `MemoryMapper::write` (w = 32)
and `MemoryMapper::write_byte` (w = 8): clear the bits covered by `mask`,
OR in `value` shifted to the field position, truncated to `w` bits as the
Rust shift on `uw` is. -/
def fieldWrite (w reg mask off value : Nat) : Nat :=
  (reg &&& notw w mask) ||| ((value <<< off) % 2 ^ w)

/-- The body shared by `MemoryMapper::read` and `MemoryMapper::read_byte`:
mask, then shift right so the field is right-aligned at bit 0. -/
def fieldRead (reg mask off : Nat) : Nat := (reg &&& mask) >>> off

/-- `MemoryMapper::write` (src/src/clic.rs lines 15-25), as the
transformation it applies to the addressed 32-bit register's value. -/
def MemoryMapper.write (reg mask off value : Nat) : Nat :=
  fieldWrite 32 reg mask off value

/-- `MemoryMapper::write_byte` (src/src/clic.rs lines 27-33). -/
def MemoryMapper.write_byte (reg mask off value : Nat) : Nat :=
  fieldWrite 8 reg mask off value

/-- `MemoryMapper::read` (src/src/clic.rs lines 35-41). -/
def MemoryMapper.read (reg mask off : Nat) : Nat := fieldRead reg mask off

/-- `MemoryMapper::read_byte` (src/src/clic.rs lines 43-48). -/
def MemoryMapper.read_byte (reg mask off : Nat) : Nat :=
  fieldRead reg mask off

/-! ### CLIC register fields (src/src/clic.rs, module `addr`) -/

def CLICCFG_NVBITS_MASK : Nat := 1
def CLICCFG_NVBITS_OFFSET : Nat := 0
def CLICCFG_NLBITS_MASK : Nat := 0x1E
def CLICCFG_NLBITS_OFFSET : Nat := 1
def CLICCFG_NMBITS_MASK : Nat := 0x60
def CLICCFG_NMBITS_OFFSET : Nat := 5

def CLICINFO_NUM_INTERRUPT_MASK : Nat := 0x1FFF
def CLICINFO_NUM_INTERRUPT_OFFSET : Nat := 0
def CLICINFO_VERSION_MASK : Nat := 0x1FE000
def CLICINFO_VERSION_OFFSET : Nat := 13
def CLICINFO_CLICINTCTLBITS_MASK : Nat := 0x1E00000
def CLICINFO_CLICINTCTLBITS_OFFSET : Nat := 21
def CLICINFO_NUM_TRIGGER_MASK : Nat := 0x7E000000
def CLICINFO_NUM_TRIGGER_OFFSET : Nat := 25

def CLICINTIP_CLICINTIP_BIT : Nat := 0
def CLICINTIP_CLICINTIP_MASK : Nat := 1
def CLICINTIE_CLICINTIE_BIT : Nat := 0
def CLICINTIE_CLICINTIE_MASK : Nat := 1

def CLICINTATTR_SHV_BIT : Nat := 0
def CLICINTATTR_SHV_MASK : Nat := 0x1
def CLICINTATTR_TRIG_MASK : Nat := 0x6
def CLICINTATTR_TRIG_OFFSET : Nat := 1
def CLICINTATTR_MODE_MASK : Nat := 0xC0
def CLICINTATTR_MODE_OFFSET : Nat := 6

def CLICINTCTL_CLICINTCTL_MASK : Nat := 0xFF
def CLICINTCTL_CLICINTCTL_OFFSET : Nat := 0

/-- A field descriptor of the interrupt controller model: the register
word size `w` the accessor is used with, the mask, the bit offset, and the
declared bit width of the field (validated against the source masks by
`clicFields_wf`). -/
structure ClicField where
  w : Nat
  mask : Nat
  off : Nat
  width : Nat
deriving DecidableEq, Repr

/-- The field descriptors of the CLIC register model: CLICCFG (byte
accessor), CLICINFO (word accessor), and the per-interrupt CLICINTIP /
CLICINTIE / CLICINTATTR / CLICINTCTL fields (byte accessor). -/
def clicFields : List ClicField :=
  [⟨8, CLICCFG_NVBITS_MASK, CLICCFG_NVBITS_OFFSET, 1⟩,
   ⟨8, CLICCFG_NLBITS_MASK, CLICCFG_NLBITS_OFFSET, 4⟩,
   ⟨8, CLICCFG_NMBITS_MASK, CLICCFG_NMBITS_OFFSET, 2⟩,
   ⟨32, CLICINFO_NUM_INTERRUPT_MASK, CLICINFO_NUM_INTERRUPT_OFFSET, 13⟩,
   ⟨32, CLICINFO_VERSION_MASK, CLICINFO_VERSION_OFFSET, 8⟩,
   ⟨32, CLICINFO_CLICINTCTLBITS_MASK, CLICINFO_CLICINTCTLBITS_OFFSET, 4⟩,
   ⟨32, CLICINFO_NUM_TRIGGER_MASK, CLICINFO_NUM_TRIGGER_OFFSET, 6⟩,
   ⟨8, CLICINTIP_CLICINTIP_MASK, CLICINTIP_CLICINTIP_BIT, 1⟩,
   ⟨8, CLICINTIE_CLICINTIE_MASK, CLICINTIE_CLICINTIE_BIT, 1⟩,
   ⟨8, CLICINTATTR_SHV_MASK, CLICINTATTR_SHV_BIT, 1⟩,
   ⟨8, CLICINTATTR_TRIG_MASK, CLICINTATTR_TRIG_OFFSET, 2⟩,
   ⟨8, CLICINTATTR_MODE_MASK, CLICINTATTR_MODE_OFFSET, 2⟩,
   ⟨8, CLICINTCTL_CLICINTCTL_MASK, CLICINTCTL_CLICINTCTL_OFFSET, 8⟩]

/-- Field write dispatched on the word size the source uses for the
field's register (`MemoryMapper::write` or `MemoryMapper::write_byte`). -/
def ClicField.write (f : ClicField) (reg value : Nat) : Nat :=
  if f.w = 32 then MemoryMapper.write reg f.mask f.off value
  else MemoryMapper.write_byte reg f.mask f.off value

/-- Field read dispatched on the word size the source uses for the
field's register. -/
def ClicField.read (f : ClicField) (reg : Nat) : Nat :=
  if f.w = 32 then MemoryMapper.read reg f.mask f.off
  else MemoryMapper.read_byte reg f.mask f.off

/-- Every CLIC field descriptor is well-formed: its mask is a contiguous
run of `width` ones shifted by `off`, fitting inside its register word. -/
theorem clicFields_wf : ∀ f ∈ clicFields,
    f.mask = (2 ^ f.width - 1) <<< f.off ∧ f.width + f.off ≤ f.w := by
  decide

/-- Every CLIC field uses either the word or the byte accessor. -/
theorem clicFields_w : ∀ f ∈ clicFields, f.w = 32 ∨ f.w = 8 := by
  decide

/-- Reading a contiguous field back after a field write returns the
written value truncated to the field width, for every register value and
every (even over-wide) written value. -/
theorem fieldRead_fieldWrite (w k off : Nat) (hkw : k + off ≤ w)
    (r v : Nat) :
    fieldRead (fieldWrite w r ((2 ^ k - 1) <<< off) off v)
      ((2 ^ k - 1) <<< off) off = v % 2 ^ k := by
  apply Nat.eq_of_testBit_eq
  intro i
  simp only [fieldRead, fieldWrite, notw, Nat.testBit_shiftRight,
    Nat.testBit_and, Nat.testBit_or, Nat.testBit_xor,
    Nat.testBit_mod_two_pow, Nat.testBit_shiftLeft,
    Nat.testBit_two_pow_sub_one]
  by_cases hik : i < k
  · have h1 : off + i < w := by omega
    have h2 : off ≤ off + i := Nat.le_add_right _ _
    have h3 : off + i - off = i := by omega
    simp [h1, h2, h3, hik, Nat.testBit_lt_two_pow (Nat.mod_lt v
      (Nat.two_pow_pos k) |>.trans_le (Nat.le_refl _)) ]
  · have h3 : off + i - off = i := by omega
    simp [h3, hik]

/-- A field write of a value that fits in the field width leaves every bit
outside the field's mask unchanged. -/
theorem fieldWrite_outside (w k off : Nat)
    (r v : Nat) (hv : v < 2 ^ k) :
    fieldWrite w r ((2 ^ k - 1) <<< off) off v
        &&& notw w ((2 ^ k - 1) <<< off)
      = r &&& notw w ((2 ^ k - 1) <<< off) := by
  apply Nat.eq_of_testBit_eq
  intro i
  simp only [fieldWrite, notw, Nat.testBit_and, Nat.testBit_or,
    Nat.testBit_xor, Nat.testBit_mod_two_pow, Nat.testBit_shiftLeft,
    Nat.testBit_two_pow_sub_one]
  by_cases hiw : i < w
  · by_cases hoff : off ≤ i
    · by_cases hik : i - off < k
      · simp [hiw, hoff, hik]
      · have hvb : v.testBit (i - off) = false :=
          Nat.testBit_lt_two_pow (hv.trans_le (Nat.pow_le_pow_right
            (by omega) (by omega)))
        simp [hiw, hoff, hik, hvb]
    · simp [hiw, hoff]
  · simp [hiw]

/-- Counterexample to C3 as stated: for the `CLICINFO.num_interrupt` field
(mask `0x1FFF`, offset 0), writing the over-wide value `0x2000` into an
all-zero register sets bit 13, which lies outside the field's mask — the
write does not leave the bits outside the mask unchanged for every `v`,
because `MemoryMapper::write` ORs in the unmasked shifted value. -/
theorem mapper_write_outside_counterexample :
    MemoryMapper.write 0 CLICINFO_NUM_INTERRUPT_MASK
        CLICINFO_NUM_INTERRUPT_OFFSET 0x2000
        &&& notw 32 CLICINFO_NUM_INTERRUPT_MASK
      ≠ 0 &&& notw 32 CLICINFO_NUM_INTERRUPT_MASK := by decide

/-- C3 (amended): for every field descriptor of the CLIC register model
and every initial register value, a `MemoryMapper` write of `v` to the
field followed by a read of the same field returns `v` truncated to the
field's width, for every `v`; and provided `v` fits within the field's
width (`v < 2 ^ width`), the write leaves all bits of the register outside
the field's mask unchanged. -/
theorem clic_field_write_read (f : ClicField) (hf : f ∈ clicFields)
    (r v : Nat) :
    f.read (f.write r v) = v % 2 ^ f.width
    ∧ (v < 2 ^ f.width →
        f.write r v &&& notw f.w f.mask = r &&& notw f.w f.mask) := by
  obtain ⟨hm, hkw⟩ := clicFields_wf f hf
  have hwr : ∀ reg value, f.write reg value
      = fieldWrite f.w reg f.mask f.off value := by
    intro reg value
    rcases clicFields_w f hf with h | h <;>
      simp [ClicField.write, MemoryMapper.write, MemoryMapper.write_byte,
        h]
  have hrd : ∀ reg, f.read reg = fieldRead reg f.mask f.off := by
    intro reg
    rcases clicFields_w f hf with h | h <;>
      simp [ClicField.read, MemoryMapper.read, MemoryMapper.read_byte,
        h]
  constructor
  · rw [hrd, hwr, hm]
    exact fieldRead_fieldWrite f.w f.width f.off hkw r v
  · intro hv
    rw [hwr, hm]
    exact fieldWrite_outside f.w f.width f.off r v hv

/-- Witness for C3 (amended): the `CLICCFG.nlbits` field (mask `0x1E`,
offset 1, width 4) on register value `0xA5`, written with `v = 9`:
read-back returns 9 and the outside bits are untouched. -/
theorem clic_field_write_read_witness :
    (ClicField.read ⟨8, CLICCFG_NLBITS_MASK, CLICCFG_NLBITS_OFFSET, 4⟩
        (ClicField.write ⟨8, CLICCFG_NLBITS_MASK, CLICCFG_NLBITS_OFFSET, 4⟩
          0xA5 9) = 9 % 2 ^ 4)
    ∧ (ClicField.write ⟨8, CLICCFG_NLBITS_MASK, CLICCFG_NLBITS_OFFSET, 4⟩
          0xA5 9 &&& notw 8 CLICCFG_NLBITS_MASK
        = 0xA5 &&& notw 8 CLICCFG_NLBITS_MASK) := by
  have h := clic_field_write_read
    ⟨8, CLICCFG_NLBITS_MASK, CLICCFG_NLBITS_OFFSET, 4⟩ (by decide) 0xA5 9
  exact ⟨h.1, h.2 (by decide)⟩

/-- C9: for every (mask, offset) constant pair of the CLIC register model,
the mask shifted right by the offset is a contiguous run of ones starting
at bit 0 (of the form `2 ^ k - 1`) and shifting it back left reproduces
the mask exactly. -/
theorem clic_masks_contiguous (f : ClicField) (hf : f ∈ clicFields) :
    ∃ k, f.mask >>> f.off = 2 ^ k - 1
      ∧ (f.mask >>> f.off) <<< f.off = f.mask := by
  refine ⟨f.width, ?_, ?_⟩ <;>
    · fin_cases hf <;> decide

/-- Witness for C9: the `CLICINFO.version` field. -/
theorem clic_masks_contiguous_witness :
    ∃ k, CLICINFO_VERSION_MASK >>> CLICINFO_VERSION_OFFSET = 2 ^ k - 1
      ∧ (CLICINFO_VERSION_MASK >>> CLICINFO_VERSION_OFFSET)
          <<< CLICINFO_VERSION_OFFSET = CLICINFO_VERSION_MASK :=
  clic_masks_contiguous
    ⟨32, CLICINFO_VERSION_MASK, CLICINFO_VERSION_OFFSET, 8⟩ (by decide)

/-! ### Per-interrupt register offsets (src/src/clic.rs lines 81-113);
`u32` arithmetic is truncated to 32 bits before the cast to `isize`. -/

def CLICINTIP_REG_OFFSET (id : Nat) : Nat :=
  (0x1000 + 0x10 * id) % 0x100000000

def CLICINTIE_REG_OFFSET (id : Nat) : Nat :=
  (0x1004 + 0x10 * id) % 0x100000000

def CLICINTATTR_REG_OFFSET (id : Nat) : Nat :=
  (0x1008 + 0x10 * id) % 0x100000000

def CLICINTCTL_REG_OFFSET (id : Nat) : Nat :=
  (0x100c + 0x10 * id) % 0x100000000

/-- C7: for interrupt ids `i < j` within the maximal capability count
`0x1FFF`, each of the four per-interrupt register offset functions is
strictly increasing, each equals `base + 0x10 * id`, and no offset
computed for one id coincides with any offset computed for a different id,
across all four register kinds. -/
theorem clicint_offsets (i j : Nat) (hij : i < j) (hj : j ≤ 0x1FFF) :
    (CLICINTIP_REG_OFFSET i < CLICINTIP_REG_OFFSET j
      ∧ CLICINTIE_REG_OFFSET i < CLICINTIE_REG_OFFSET j
      ∧ CLICINTATTR_REG_OFFSET i < CLICINTATTR_REG_OFFSET j
      ∧ CLICINTCTL_REG_OFFSET i < CLICINTCTL_REG_OFFSET j)
    ∧ (∀ id ≤ 0x1FFF,
        CLICINTIP_REG_OFFSET id = 0x1000 + 0x10 * id
        ∧ CLICINTIE_REG_OFFSET id = 0x1004 + 0x10 * id
        ∧ CLICINTATTR_REG_OFFSET id = 0x1008 + 0x10 * id
        ∧ CLICINTCTL_REG_OFFSET id = 0x100c + 0x10 * id)
    ∧ (∀ f ∈ [CLICINTIP_REG_OFFSET, CLICINTIE_REG_OFFSET,
          CLICINTATTR_REG_OFFSET, CLICINTCTL_REG_OFFSET],
        ∀ g ∈ [CLICINTIP_REG_OFFSET, CLICINTIE_REG_OFFSET,
          CLICINTATTR_REG_OFFSET, CLICINTCTL_REG_OFFSET],
        f i ≠ g j ∧ f j ≠ g i) := by
  have key : ∀ id ≤ 0x1FFF,
      CLICINTIP_REG_OFFSET id = 0x1000 + 0x10 * id
      ∧ CLICINTIE_REG_OFFSET id = 0x1004 + 0x10 * id
      ∧ CLICINTATTR_REG_OFFSET id = 0x1008 + 0x10 * id
      ∧ CLICINTCTL_REG_OFFSET id = 0x100c + 0x10 * id := by
    intro id hid
    unfold CLICINTIP_REG_OFFSET CLICINTIE_REG_OFFSET
      CLICINTATTR_REG_OFFSET CLICINTCTL_REG_OFFSET
    omega
  have hi : i ≤ 0x1FFF := by omega
  obtain ⟨e1i, e2i, e3i, e4i⟩ := key i hi
  obtain ⟨e1j, e2j, e3j, e4j⟩ := key j hj
  refine ⟨⟨by omega, by omega, by omega, by omega⟩, key, ?_⟩
  intro f hf g hg
  simp only [List.mem_cons, List.not_mem_nil, or_false] at hf hg
  rcases hf with rfl | rfl | rfl | rfl <;>
    rcases hg with rfl | rfl | rfl | rfl <;>
    exact ⟨by omega, by omega⟩

/-- Witness for C7: ids 0 and 1. -/
theorem clicint_offsets_witness :
    CLICINTIP_REG_OFFSET 0 < CLICINTIP_REG_OFFSET 1
    ∧ CLICINTIP_REG_OFFSET 1 = 0x1010
    ∧ CLICINTIP_REG_OFFSET 0 ≠ CLICINTCTL_REG_OFFSET 1 := by
  have h := clicint_offsets 0 1 (by decide) (by decide)
  refine ⟨h.1.1, ?_, ?_⟩
  · have := (h.2.1 1 (by decide)).1
    omega
  · exact ((h.2.2 CLICINTIP_REG_OFFSET (by simp) CLICINTCTL_REG_OFFSET
      (by simp)).1)

/-! ### Context-save trampolines
(`_nxti_trap_handler` in src/src/lib.rs lines 656-729 and the wrapper
emitted by `interrupt_handler` in src/macros/src/lib.rs lines 306-358) -/

/-- The registers named by the trampoline save/restore sequences.
`mcause`/`mepc` denote the CSR values staged through `t0`/`t1` into their
stack slots. -/
inductive Reg
  | ra | t0 | t1 | t2 | t3 | t4 | t5 | t6
  | a0 | a1 | a2 | a3 | a4 | a5 | a6 | a7
  | mcause | mepc
deriving DecidableEq, Repr

/-- The save sequence of `_nxti_trap_handler` (src/src/lib.rs lines
664-683): the ordered list of (register, stack offset) pairs stored. -/
def nxtiSaveSeq : List (Reg × Nat) :=
  [(Reg.ra, 0), (Reg.t0, 4), (Reg.t1, 8), (Reg.t2, 12),
   (Reg.a0, 16), (Reg.a1, 20), (Reg.a2, 24), (Reg.a3, 28),
   (Reg.a4, 32), (Reg.a5, 36), (Reg.a6, 40), (Reg.a7, 44),
   (Reg.t3, 48), (Reg.t4, 52), (Reg.t5, 56), (Reg.t6, 60),
   (Reg.mcause, 64), (Reg.mepc, 68)]

/-- The restore sequence of `_nxti_trap_handler` (src/src/lib.rs lines
704-724): the ordered list of (register, stack offset) pairs loaded. -/
def nxtiRestoreSeq : List (Reg × Nat) :=
  [(Reg.mcause, 64), (Reg.mepc, 68),
   (Reg.ra, 0), (Reg.t0, 4), (Reg.t1, 8), (Reg.t2, 12),
   (Reg.a0, 16), (Reg.a1, 20), (Reg.a2, 24), (Reg.a3, 28),
   (Reg.a4, 32), (Reg.a5, 36), (Reg.a6, 40), (Reg.a7, 44),
   (Reg.t3, 48), (Reg.t4, 52), (Reg.t5, 56), (Reg.t6, 60)]

/-- The save sequence of the per-interrupt wrapper generated by
`interrupt_handler` (src/macros/src/lib.rs lines 310-329). -/
def wrapperSaveSeq : List (Reg × Nat) :=
  [(Reg.ra, 0), (Reg.t0, 4), (Reg.t1, 8), (Reg.t2, 12),
   (Reg.a0, 16), (Reg.a1, 20), (Reg.a2, 24), (Reg.a3, 28),
   (Reg.a4, 32), (Reg.a5, 36), (Reg.a6, 40), (Reg.a7, 44),
   (Reg.t3, 48), (Reg.t4, 52), (Reg.t5, 56), (Reg.t6, 60),
   (Reg.mcause, 64), (Reg.mepc, 68)]

/-- The restore sequence of the per-interrupt wrapper
(src/macros/src/lib.rs lines 335-354). -/
def wrapperRestoreSeq : List (Reg × Nat) :=
  [(Reg.mcause, 64), (Reg.mepc, 68),
   (Reg.ra, 0), (Reg.t0, 4), (Reg.t1, 8), (Reg.t2, 12),
   (Reg.a0, 16), (Reg.a1, 20), (Reg.a2, 24), (Reg.a3, 28),
   (Reg.a4, 32), (Reg.a5, 36), (Reg.a6, 40), (Reg.a7, 44),
   (Reg.t3, 48), (Reg.t4, 52), (Reg.t5, 56), (Reg.t6, 60)]

/-- Counterexample to C4 as stated: in both trampolines, the restore
instruction sequence is not the mirror image of the save sequence — the
first restored general-purpose register is `ra` (the first saved, not the
last), and the cause/epc pair moves from the end of the save sequence to
the front of the restore sequence. -/
theorem restore_not_mirror_counterexample :
    nxtiRestoreSeq ≠ nxtiSaveSeq.reverse
    ∧ wrapperRestoreSeq ≠ wrapperSaveSeq.reverse := by decide

/-- C4 (amended): in both trampolines the restore sequence loads exactly
the (register, stack offset) pairs that the save sequence stored — same
offsets, same registers, a permutation of the save sequence — but not in
mirror order: the cause/epc slots are restored first and the
general-purpose registers are then restored in the very order they were
saved (first-saved first-restored).  Stack discipline still holds because
the stack pointer is adjusted exactly once on entry and once on exit, so
slot addresses do not depend on the restore order. -/
theorem restore_same_slots :
    nxtiRestoreSeq
        = [(Reg.mcause, 64), (Reg.mepc, 68)] ++ nxtiSaveSeq.take 16
    ∧ nxtiSaveSeq
        = nxtiSaveSeq.take 16 ++ [(Reg.mcause, 64), (Reg.mepc, 68)]
    ∧ wrapperRestoreSeq
        = [(Reg.mcause, 64), (Reg.mepc, 68)] ++ wrapperSaveSeq.take 16
    ∧ wrapperSaveSeq
        = wrapperSaveSeq.take 16 ++ [(Reg.mcause, 64), (Reg.mepc, 68)]
    ∧ nxtiRestoreSeq.Perm nxtiSaveSeq
    ∧ wrapperRestoreSeq.Perm wrapperSaveSeq := by decide

/-! ### Interrupt-enable windows of the Model B trap path (C8) -/

/-- Abstract instructions of the two trampolines, keeping exactly the
structure C8 is about: frame stores/loads, CSR accesses that enable or
disable `mstatus.MIE`, and control flow. -/
inductive Instr
  | spAdd (imm : Int)
  | store (r : Reg) (off : Nat)
  | load (r : Reg) (off : Nat)
  | csrRead (r : Reg) (csr : Nat)
  | csrWrite (csr : Nat) (r : Reg)
  | csrReadSetNxti (r : Reg)
  | csrSetMie
  | csrClearMie
  | branchZero (r : Reg) (target : Nat)
  | jump (target : Nat)
  | callReg (r : Reg)
  | callHandler
  | mret
deriving DecidableEq, Repr

/-- The instruction sequence of `_nxti_trap_handler` (src/src/lib.rs lines
661-728).  `csrReadSetNxti` is the `csrrsi t0, 0x345, 8` access to the
`mnxti` CSR, which per its hardware definition (and the source comment)
enables global interrupts as a side effect.  The backward jump `j 1b`
targets index 21 (`csrReadSetNxti`); `beqz t0, 2f` targets index 25
(`csrClearMie`). -/
def nxtiProg : List Instr :=
  [Instr.spAdd (-128),
   Instr.store Reg.ra 0, Instr.store Reg.t0 4, Instr.store Reg.t1 8,
   Instr.store Reg.t2 12, Instr.store Reg.a0 16, Instr.store Reg.a1 20,
   Instr.store Reg.a2 24, Instr.store Reg.a3 28, Instr.store Reg.a4 32,
   Instr.store Reg.a5 36, Instr.store Reg.a6 40, Instr.store Reg.a7 44,
   Instr.store Reg.t3 48, Instr.store Reg.t4 52, Instr.store Reg.t5 56,
   Instr.store Reg.t6 60,
   Instr.csrRead Reg.t0 0x342, Instr.csrRead Reg.t1 0x341,
   Instr.store Reg.t0 64, Instr.store Reg.t1 68,
   Instr.csrReadSetNxti Reg.t0,
   Instr.branchZero Reg.t0 25,
   Instr.callReg Reg.t0,
   Instr.jump 21,
   Instr.csrClearMie,
   Instr.load Reg.t0 64, Instr.load Reg.t1 68,
   Instr.csrWrite 0x342 Reg.t0, Instr.csrWrite 0x341 Reg.t1,
   Instr.load Reg.ra 0, Instr.load Reg.t0 4, Instr.load Reg.t1 8,
   Instr.load Reg.t2 12, Instr.load Reg.a0 16, Instr.load Reg.a1 20,
   Instr.load Reg.a2 24, Instr.load Reg.a3 28, Instr.load Reg.a4 32,
   Instr.load Reg.a5 36, Instr.load Reg.a6 40, Instr.load Reg.a7 44,
   Instr.load Reg.t3 48, Instr.load Reg.t4 52, Instr.load Reg.t5 56,
   Instr.load Reg.t6 60,
   Instr.spAdd 128, Instr.mret]

/-- The instruction sequence of the wrapper emitted by the
`interrupt_handler` macro (src/macros/src/lib.rs lines 306-358);
`csrSetMie` is `csrsi mstatus, 8`, `csrClearMie` is `csrci mstatus, 8`. -/
def wrapperProg : List Instr :=
  [Instr.spAdd (-128),
   Instr.store Reg.ra 0, Instr.store Reg.t0 4, Instr.store Reg.t1 8,
   Instr.store Reg.t2 12, Instr.store Reg.a0 16, Instr.store Reg.a1 20,
   Instr.store Reg.a2 24, Instr.store Reg.a3 28, Instr.store Reg.a4 32,
   Instr.store Reg.a5 36, Instr.store Reg.a6 40, Instr.store Reg.a7 44,
   Instr.store Reg.t3 48, Instr.store Reg.t4 52, Instr.store Reg.t5 56,
   Instr.store Reg.t6 60,
   Instr.csrRead Reg.t0 0x342, Instr.csrRead Reg.t1 0x341,
   Instr.store Reg.t0 64, Instr.store Reg.t1 68,
   Instr.csrSetMie,
   Instr.callHandler,
   Instr.csrClearMie,
   Instr.load Reg.t0 64, Instr.load Reg.t1 68,
   Instr.csrWrite 0x342 Reg.t0, Instr.csrWrite 0x341 Reg.t1,
   Instr.load Reg.ra 0, Instr.load Reg.t0 4, Instr.load Reg.t1 8,
   Instr.load Reg.t2 12, Instr.load Reg.a0 16, Instr.load Reg.a1 20,
   Instr.load Reg.a2 24, Instr.load Reg.a3 28, Instr.load Reg.a4 32,
   Instr.load Reg.a5 36, Instr.load Reg.a6 40, Instr.load Reg.a7 44,
   Instr.load Reg.t3 48, Instr.load Reg.t4 52, Instr.load Reg.t5 56,
   Instr.load Reg.t6 60,
   Instr.spAdd 128, Instr.mret]

/-- Is this instruction a store of the register frame? -/
def isFrameStore : Instr → Bool
  | Instr.store _ _ => true
  | _ => false

/-- Is this instruction a load restoring the register frame? -/
def isFrameLoad : Instr → Bool
  | Instr.load _ _ => true
  | _ => false

/-- Does this instruction enable global interrupts (`mstatus.MIE`)?  Both
`csrsi mstatus, 8` and the `mnxti` read-set access do. -/
def enablesMie : Instr → Bool
  | Instr.csrSetMie => true
  | Instr.csrReadSetNxti _ => true
  | _ => false

/-- Does this instruction disable global interrupts? -/
def disablesMie : Instr → Bool
  | Instr.csrClearMie => true
  | _ => false

/-- The indices of the instructions of `p` selected by `sel`. -/
def instrPositions (sel : Instr → Bool) (p : List Instr) : List Nat :=
  (List.range p.length).filter (fun k => sel (p.getD k Instr.mret))

/-- The targets of branch and jump instructions of `p`. -/
def jumpTargets (p : List Instr) : List Nat :=
  p.foldr (fun ins acc => match ins with
    | Instr.branchZero _ t => t :: acc
    | Instr.jump t => t :: acc
    | _ => acc) []

/-- C8: in both Model B trampolines, every instruction enabling global
interrupts sits strictly after the last store of the register frame, and
an instruction disabling global interrupts sits strictly before the first
load restoring the frame; moreover every branch/jump target lies after the
last frame store, so no execution path re-enters the save window — global
interrupts are never enabled while a frame save or restore is in
progress. -/
theorem mie_window (p : List Instr)
    (hp : p = nxtiProg ∨ p = wrapperProg) :
    ((instrPositions enablesMie p).all (fun k =>
        (instrPositions isFrameStore p).all (fun m => decide (m < k)))
      = true)
    ∧ ((instrPositions disablesMie p).any (fun d =>
        (instrPositions isFrameLoad p).all (fun m => decide (d < m)))
      = true)
    ∧ ((jumpTargets p).all (fun t =>
        (instrPositions isFrameStore p).all (fun m => decide (m < t)))
      = true) := by
  rcases hp with rfl | rfl <;> decide

/-- Witness for C8: the `_nxti_trap_handler` instance. -/
theorem mie_window_witness :
    ((instrPositions enablesMie nxtiProg).all (fun k =>
        (instrPositions isFrameStore nxtiProg).all
          (fun m => decide (m < k))) = true)
    ∧ ((instrPositions disablesMie nxtiProg).any (fun d =>
        (instrPositions isFrameLoad nxtiProg).all
          (fun m => decide (d < m))) = true) := by
  have h := mie_window nxtiProg (Or.inl rfl)
  exact ⟨h.1, h.2.1⟩

end RiscvRt
